import Mathlib

/-!
Verification of the realtime relay core of the voice-server repository
(file src/server/server.js): session registry admission, per-session
message forwarding between the client WebSocket and the Speechmatics
WebSocket, language resolution from the request URL, and teardown.

The JavaScript handlers are embedded as pure Lean functions over an
explicit session state; asynchronous handler firings become events fed
to a step function. Machine-level details that the handlers observe are
modelled explicitly: WebSocket ready states, the JavaScript truthiness
of the `x || y` idiom, and JavaScript property lookup on an object
literal, which falls back to the inherited Object.prototype properties
when the own property is absent.
-/

namespace VoiceServer

/-- WebSocket ready states, as in the ws library constants
`WebSocket.CONNECTING/OPEN/CLOSING/CLOSED`. -/
inductive ReadyState
  | CONNECTING
  | OPEN
  | CLOSING
  | CLOSED
deriving DecidableEq, Repr

/-- Effect of calling `.close()` on a socket: a socket that is connecting
or open moves to CLOSING; a closing or closed socket is unaffected. -/
def wsCloseCall : ReadyState → ReadyState
  | ReadyState.CONNECTING => ReadyState.CLOSING
  | ReadyState.OPEN => ReadyState.CLOSING
  | rs => rs

/-- Result of a JavaScript property read, as used for
`SUPPORTED_LANGUAGES[langParam]` in server.js line 232: either a string
own-property value, an inherited Object.prototype member (a function or
object, hence truthy), or undefined. -/
inductive JsVal
  | undef
  | str (s : String)
  | protoBuiltin (name : String)
deriving DecidableEq, Repr

/-- JavaScript truthiness of a JsVal: undefined and the empty string are
falsy; every inherited builtin is a function or object, hence truthy. -/
def jsTruthy : JsVal → Bool
  | JsVal.undef => false
  | JsVal.str s => s != ""
  | JsVal.protoBuiltin _ => true

/-- The `x || d` idiom on an optional string (absent or empty string
falls back to the default), as in `msg.reason || "Speechmatics error"`. -/
def jsOrString : Option String → String → String
  | some s, d => if s = "" then d else s
  | none, d => d

/-- server.js lines 47-59: the own enumerable properties of the
SUPPORTED_LANGUAGES object literal. -/
def SUPPORTED_LANGUAGES : List (String × String) :=
  [("ar", "ar"), ("en", "en"), ("es", "es"), ("fr", "fr"), ("de", "de"),
   ("it", "it"), ("pt", "pt"), ("ru", "ru"), ("zh", "zh"), ("ja", "ja"),
   ("ko", "ko")]

/-- Property names an object literal inherits from Object.prototype in
JavaScript; reading one of them on SUPPORTED_LANGUAGES yields a function
(or, for __proto__, an object), never undefined. -/
def objectPrototypeProps : List String :=
  ["constructor", "hasOwnProperty", "isPrototypeOf", "propertyIsEnumerable",
   "toLocaleString", "toString", "valueOf", "__defineGetter__",
   "__defineSetter__", "__lookupGetter__", "__lookupSetter__", "__proto__"]

/-- JavaScript evaluation of `SUPPORTED_LANGUAGES[key]`: the own property
when present, else the inherited Object.prototype member, else undefined. -/
def supportedLanguagesGet (key : String) : JsVal :=
  match SUPPORTED_LANGUAGES.lookup key with
  | some v => JsVal.str v
  | none =>
    if objectPrototypeProps.contains key then JsVal.protoBuiltin key
    else JsVal.undef

/-- JavaScript single-character `String.prototype.split`: every separator
occurrence cuts, and the empty string splits to one empty segment. -/
def splitOnChar (sep : Char) : List Char → List (List Char)
  | [] => [[]]
  | c :: rest =>
    let r := splitOnChar sep rest
    if c = sep then [] :: r
    else
      match r with
      | g :: gs => (c :: g) :: gs
      | [] => [[c]]

/-- `url.split("?")[1] || ""` from server.js line 230: the segment between
the first and second question mark, or the empty string when absent. -/
def jsSplitSecondSegment (sep : Char) (s : List Char) : List Char :=
  match splitOnChar sep s with
  | _ :: q :: _ => q
  | _ => []

/-- Value of an ASCII hexadecimal digit, if the character is one. -/
def hexDigitVal (c : Char) : Option Nat :=
  if '0' ≤ c ∧ c ≤ '9' then some (c.toNat - 48)
  else if 'A' ≤ c ∧ c ≤ 'F' then some (c.toNat - 55)
  else if 'a' ≤ c ∧ c ≤ 'f' then some (c.toNat - 87)
  else none

/-- application/x-www-form-urlencoded decoding as URLSearchParams performs
it, restricted to single-byte (ASCII) decoded characters: a plus becomes a
space, a percent followed by two hex digits becomes the coded character,
and a malformed percent escape is kept literally. -/
def formUrlDecode : List Char → List Char
  | [] => []
  | '%' :: a :: b :: rest =>
    match hexDigitVal a, hexDigitVal b with
    | some ha, some hb => Char.ofNat (16 * ha + hb) :: formUrlDecode rest
    | _, _ => '%' :: formUrlDecode (a :: b :: rest)
  | c :: rest => (if c = '+' then ' ' else c) :: formUrlDecode rest

/-- Key/value split of one query segment at its first equals sign;
a segment with no equals sign is a key with empty value. -/
def splitFirstEq : List Char → List Char × List Char
  | [] => ([], [])
  | '=' :: rest => ([], rest)
  | c :: rest =>
    let kv := splitFirstEq rest
    (c :: kv.1, kv.2)

/-- The ordered key/value pairs URLSearchParams extracts from a query
string: split on ampersands, drop empty segments, split each segment at
its first equals sign, form-decode both sides. -/
def parseQueryPairs (q : List Char) : List (List Char × List Char) :=
  ((splitOnChar '&' q).filter (fun seg => seg ≠ [])).map fun seg =>
    (formUrlDecode (splitFirstEq seg).1, formUrlDecode (splitFirstEq seg).2)

/-- `new URLSearchParams(q).get(key)`: a single leading question mark is
stripped, and the first pair with the given key wins. -/
def searchParamsGet (q : List Char) (key : List Char) : Option (List Char) :=
  let q1 := match q with
    | '?' :: rest => rest
    | _ => q
  (parseQueryPairs q1).lookup key

/-- server.js lines 231-232 applied to an already extracted `lang`
parameter: `urlParams.get("lang") || "ar"` followed by
`SUPPORTED_LANGUAGES[langParam] || "ar"`. -/
def resolveLangParam (langGet : Option (List Char)) : JsVal :=
  let langParam : List Char :=
    match langGet with
    | some v => if v = [] then "ar".toList else v
    | none => "ar".toList
  let v := supportedLanguagesGet (String.mk langParam)
  if jsTruthy v then v else JsVal.str "ar"

/-- server.js lines 229-235: session language resolution from the request
URL. URLSearchParams never throws on a string input, so the surrounding
try/catch never fires for string URLs and the computation is total. -/
def resolveSessionLanguage (url : String) : JsVal :=
  let query := jsSplitSecondSegment '?' url.toList
  resolveLangParam (searchParamsGet query ("lang".toList))

/-- The per-session mutable state of server.js lines 216-227: the session
object fields the handlers read and write, the ready state of the client
socket, and the ready state of the Speechmatics socket (none while
`session.speechmaticsWs` is still null). `pingActive` models whether the
liveness interval of line 222 is currently scheduled. -/
structure Session where
  id : String
  language : JsVal
  closed : Bool
  audioReceived : Bool
  pingActive : Bool
  speechmaticsWs : Option ReadyState
  clientWs : ReadyState
deriving DecidableEq, Repr

/-- Structured events the relay sends on the client WebSocket, one
constructor per `type` value produced in server.js. -/
inductive ClientEvent
  | errorEv (message : String) (details : Option String)
  | readyEv
  | recognitionStartedEv
  | partialEv (transcript : String)
  | finalEv (transcript : String)
  | warningEv (message : String)
  | speechmaticsDisconnectedEv (code : Nat) (reason : Option String)
deriving DecidableEq, Repr

/-- Payloads the relay sends on the Speechmatics WebSocket. -/
inductive UpstreamSend
  | startRecognition (language : JsVal)
  | endOfStream
  | audio (payload : List Nat)
deriving DecidableEq, Repr

/-- Parse result of an upstream Speechmatics message, mirroring the
`msg.message` dispatch of server.js lines 296-340: the transcript and
reason fields are optional because the code reads them with `?.` and
`||` fallbacks; NotJson stands for a frame `JSON.parse` rejects. -/
inductive SmMsg
  | RecognitionStarted
  | AddPartialTranscript (transcript : Option String)
  | AddTranscript (transcript : Option String)
  | AudioAdded
  | ErrorMsg (reason : Option String)
  | WarningMsg (reason : Option String)
  | OtherMsg
  | NotJson
deriving DecidableEq, Repr

/-- A frame received from the client: a kind flag (text or binary) and
its bytes. The ws library delivers both kinds as a Buffer, which is what
the handler inspects. -/
structure Frame where
  isBinary : Bool
  bytes : List Nat
deriving DecidableEq, Repr

/-- server.js line 32. -/
def MAX_CONCURRENT_SESSIONS : Nat := 2

/-- server.js line 209. -/
def capacityMessage : String := "Server at capacity. Please try again later."

/-- server.js lines 293-344, the Speechmatics message handler: drop
everything once closed, otherwise relay the recognised message kinds to
the client, record `audioReceived` on an AudioAdded acknowledgment, and
swallow unparsable or unrecognised messages. -/
def handleSmMessage (s : Session) (m : SmMsg) : Session × List ClientEvent :=
  if s.closed then (s, [])
  else
    match m with
    | SmMsg.RecognitionStarted => (s, [ClientEvent.recognitionStartedEv])
    | SmMsg.AddPartialTranscript t =>
      (s, [ClientEvent.partialEv (jsOrString t "")])
    | SmMsg.AddTranscript t => (s, [ClientEvent.finalEv (jsOrString t "")])
    | SmMsg.AudioAdded => ({ s with audioReceived := true }, [])
    | SmMsg.ErrorMsg r =>
      (s, [ClientEvent.errorEv (jsOrString r "Speechmatics error") r])
    | SmMsg.WarningMsg r =>
      (s, [ClientEvent.warningEv (jsOrString r "Speechmatics warning")])
    | SmMsg.OtherMsg => (s, [])
    | SmMsg.NotJson => (s, [])

/-- server.js lines 346-358, the Speechmatics close handler: the library
has moved the socket to CLOSED; the handler notifies the client once,
unless the session is already closed, and touches nothing else. -/
def onSmClose (s : Session) (code : Nat) (reason : Option String) :
    Session × List ClientEvent :=
  let s1 := { s with speechmaticsWs := some ReadyState.CLOSED }
  if s.closed then (s1, [])
  else (s1, [ClientEvent.speechmaticsDisconnectedEv code reason])

/-- server.js lines 360-371, the Speechmatics error handler: notify the
client once, unless the session is already closed; no state change. -/
def onSmError (s : Session) (errMessage : String) : Session × List ClientEvent :=
  if s.closed then (s, [])
  else (s, [ClientEvent.errorEv "Speechmatics connection error" (some errMessage)])

/-- server.js lines 247-291, the Speechmatics open handler: the socket
becomes OPEN, StartRecognition with the session language is sent
upstream, and a ready event is sent to the client. -/
def onSmOpen (s : Session) : Session × List UpstreamSend × List ClientEvent :=
  ({ s with speechmaticsWs := some ReadyState.OPEN },
   [UpstreamSend.startRecognition s.language], [ClientEvent.readyEv])

/-- server.js lines 384-411, the client message handler, parameterised by
the JSON.parse success predicate on the frame bytes: drop everything once
closed; a JSON-decodable payload is a configuration message, consumed
without forwarding; anything else is forwarded verbatim to Speechmatics
when that socket is OPEN, and dropped otherwise. `audioReceived` is not
written here (the first-chunk branch at line 405 only logs). -/
def handleClientMessage (jsonOk : List Nat → Bool) (s : Session) (f : Frame) :
    Session × List UpstreamSend :=
  if s.closed then (s, [])
  else if jsonOk f.bytes then (s, [])
  else if s.speechmaticsWs = some ReadyState.OPEN then
    (s, [UpstreamSend.audio f.bytes])
  else (s, [])

/-- server.js lines 413-427, the client close handler: mark the session
closed, clear the liveness interval, send EndOfStream upstream only when
the Speechmatics socket is currently OPEN, close that socket, and delete
the registry entry. Returns the session, the registry and the upstream
sends. -/
def onClientClose (s : Session) (reg : List String) :
    Session × List String × List UpstreamSend :=
  let s1 := { s with closed := true, pingActive := false }
  match s1.speechmaticsWs with
  | some rs =>
    ({ s1 with speechmaticsWs := some (wsCloseCall rs) }, reg.erase s.id,
     if rs = ReadyState.OPEN then [UpstreamSend.endOfStream] else [])
  | none => (s1, reg.erase s.id, [])

/-- server.js lines 429-437, the client error handler: identical to the
close handler except that no EndOfStream is ever sent before closing the
Speechmatics socket. -/
def onClientError (s : Session) (reg : List String) :
    Session × List String × List UpstreamSend :=
  let s1 := { s with closed := true, pingActive := false }
  match s1.speechmaticsWs with
  | some rs =>
    ({ s1 with speechmaticsWs := some (wsCloseCall rs) }, reg.erase s.id, [])
  | none => (s1, reg.erase s.id, [])

/-- server.js lines 239-245 and 372-381, `setupSpeechmatics`: on success
the Speechmatics socket exists in CONNECTING state; when the WebSocket
constructor throws (modelled by `throwErr = some message`), the catch
block sends one error event to the client and nothing else happens: the
client socket is not closed and `session.speechmaticsWs` stays null. -/
def setupSpeechmatics (throwErr : Option String) (s : Session) :
    Session × List ClientEvent :=
  match throwErr with
  | some m =>
    (s, [ClientEvent.errorEv "Failed to setup Speechmatics connection" (some m)])
  | none => ({ s with speechmaticsWs := some ReadyState.CONNECTING }, [])

/-- The session object literal of server.js lines 216-227 together with
the language resolution of lines 229-235, before registration. -/
def initSession (sessionId : String) (url : String) : Session :=
  { id := sessionId
    language := resolveSessionLanguage url
    closed := false
    audioReceived := false
    pingActive := true
    speechmaticsWs := none
    clientWs := ReadyState.OPEN }

/-- `activeSessions.set(id, session)` restricted to the key set: a fresh
key is appended, an existing key keeps the map size unchanged. -/
def mapSetKey (reg : List String) (id : String) : List String :=
  if id ∈ reg then reg else reg ++ [id]

/-- Outcome of one inbound connection event. -/
structure ConnResult where
  admittedSession : Option Session
  registry : List String
  clientEvents : List ClientEvent
  clientWsAfter : ReadyState
deriving DecidableEq, Repr

/-- server.js lines 200-241 and 439, the connection handler: reject with
exactly one capacity error event and a close when the registry is full,
otherwise build the session, register it and run `setupSpeechmatics`. -/
def onConnection (throwErr : Option String) (reg : List String)
    (sessionId url : String) : ConnResult :=
  if MAX_CONCURRENT_SESSIONS ≤ reg.length then
    { admittedSession := none
      registry := reg
      clientEvents := [ClientEvent.errorEv capacityMessage none]
      clientWsAfter := ReadyState.CLOSING }
  else
    let s := initSession sessionId url
    let reg1 := mapSetKey reg sessionId
    let s1 := (setupSpeechmatics throwErr s).1
    { admittedSession := some s1
      registry := reg1
      clientEvents := (setupSpeechmatics throwErr s).2
      clientWsAfter := s1.clientWs }

/-- Asynchronous events a live session can receive. Events of the
Speechmatics socket can only fire when that socket exists, which the
step function checks. -/
inductive Ev
  | clientMsg (f : Frame)
  | clientClose
  | clientError
  | smOpenEv
  | smMsgEv (m : SmMsg)
  | smCloseEv (code : Nat) (reason : Option String)
  | smErrorEv (errMessage : String)
deriving DecidableEq, Repr

/-- Result of dispatching one event on a session. -/
structure StepOut where
  session : Session
  registry : List String
  clientEvents : List ClientEvent
  upstreamSends : List UpstreamSend
deriving DecidableEq, Repr

/-- One handler firing, dispatching to the handlers above. Speechmatics
events on a session whose socket was never created are impossible (no
handler is attached) and leave everything unchanged; the open event
additionally requires a connecting socket. -/
def step (jsonOk : List Nat → Bool) (s : Session) (reg : List String) :
    Ev → StepOut
  | Ev.clientMsg f =>
    let r := handleClientMessage jsonOk s f
    { session := r.1, registry := reg, clientEvents := [], upstreamSends := r.2 }
  | Ev.clientClose =>
    let r := onClientClose s reg
    { session := r.1, registry := r.2.1, clientEvents := [],
      upstreamSends := r.2.2 }
  | Ev.clientError =>
    let r := onClientError s reg
    { session := r.1, registry := r.2.1, clientEvents := [],
      upstreamSends := r.2.2 }
  | Ev.smOpenEv =>
    match s.speechmaticsWs with
    | some ReadyState.CONNECTING =>
      let r := onSmOpen s
      { session := r.1, registry := reg, clientEvents := r.2.2,
        upstreamSends := r.2.1 }
    | _ => { session := s, registry := reg, clientEvents := [], upstreamSends := [] }
  | Ev.smMsgEv m =>
    match s.speechmaticsWs with
    | some _ =>
      let r := handleSmMessage s m
      { session := r.1, registry := reg, clientEvents := r.2, upstreamSends := [] }
    | none => { session := s, registry := reg, clientEvents := [], upstreamSends := [] }
  | Ev.smCloseEv code reason =>
    match s.speechmaticsWs with
    | some _ =>
      let r := onSmClose s code reason
      { session := r.1, registry := reg, clientEvents := r.2, upstreamSends := [] }
    | none => { session := s, registry := reg, clientEvents := [], upstreamSends := [] }
  | Ev.smErrorEv m =>
    match s.speechmaticsWs with
    | some _ =>
      let r := onSmError s m
      { session := r.1, registry := reg, clientEvents := r.2, upstreamSends := [] }
    | none => { session := s, registry := reg, clientEvents := [], upstreamSends := [] }

/-- Two consecutive handler firings, threading session and registry. -/
def step2 (jsonOk : List Nat → Bool) (s : Session) (reg : List String)
    (e1 e2 : Ev) : StepOut × StepOut :=
  let o1 := step jsonOk s reg e1
  (o1, step jsonOk o1.session o1.registry e2)

/-- Session and registry after a sequence of handler firings. -/
def runTrace (jsonOk : List Nat → Bool) (s : Session) (reg : List String) :
    List Ev → Session × List String
  | [] => (s, reg)
  | e :: rest =>
    let o := step jsonOk s reg e
    runTrace jsonOk o.session o.registry rest

/-! Theorems. -/

/-- A session in steady streaming state: registered, not closed, liveness
timer active, Speechmatics socket open. -/
def sOpen : Session :=
  { id := "k1"
    language := JsVal.str "ar"
    closed := false
    audioReceived := false
    pingActive := true
    speechmaticsWs := some ReadyState.OPEN
    clientWs := ReadyState.OPEN }

/-- A session whose client side already tore it down. -/
def sClosed : Session :=
  { id := "k1"
    language := JsVal.str "ar"
    closed := true
    audioReceived := false
    pingActive := false
    speechmaticsWs := some ReadyState.CLOSING
    clientWs := ReadyState.CLOSED }

/-- C1: a connection arriving at a registry of size at least 2 receives
exactly one capacity error event, is closed, and is never inserted, so
the registry is unchanged; a connection arriving below the cap with a
fresh session id (ids are handshake tokens, unique per connection) is
inserted and the size grows by exactly 1; the cap of 2 is preserved. -/
theorem claim_C1 (throwErr : Option String) (reg : List String) (id url : String) :
    (MAX_CONCURRENT_SESSIONS ≤ reg.length →
      (onConnection throwErr reg id url).clientEvents
          = [ClientEvent.errorEv capacityMessage none] ∧
      (onConnection throwErr reg id url).clientWsAfter = ReadyState.CLOSING ∧
      (onConnection throwErr reg id url).admittedSession = none ∧
      (onConnection throwErr reg id url).registry = reg) ∧
    (reg.length < MAX_CONCURRENT_SESSIONS → id ∉ reg →
      (onConnection throwErr reg id url).registry = reg ++ [id] ∧
      (onConnection throwErr reg id url).registry.length = reg.length + 1 ∧
      (onConnection throwErr reg id url).admittedSession.isSome = true) ∧
    (reg.length ≤ MAX_CONCURRENT_SESSIONS →
      (onConnection throwErr reg id url).registry.length
          ≤ MAX_CONCURRENT_SESSIONS) := by
  refine ⟨fun h => ?_, fun h hid => ?_, fun h => ?_⟩
  · simp [onConnection, h]
  · have hnle : ¬ MAX_CONCURRENT_SESSIONS ≤ reg.length := by omega
    simp [onConnection, hnle, mapSetKey, hid]
  · by_cases hc : MAX_CONCURRENT_SESSIONS ≤ reg.length
    · simp [onConnection, hc, h]
    · by_cases hm : id ∈ reg
      · simp [onConnection, hc, mapSetKey, hm, h]
      · simp [onConnection, hc, mapSetKey, hm]
        omega

/-- C1 witness: concrete instances of all three branches. -/
theorem claim_C1_witness :
    (MAX_CONCURRENT_SESSIONS ≤ ["a", "b"].length →
      (onConnection none ["a", "b"] "c" "/ws").clientEvents
          = [ClientEvent.errorEv capacityMessage none] ∧
      (onConnection none ["a", "b"] "c" "/ws").clientWsAfter = ReadyState.CLOSING ∧
      (onConnection none ["a", "b"] "c" "/ws").admittedSession = none ∧
      (onConnection none ["a", "b"] "c" "/ws").registry = ["a", "b"]) ∧
    (["a", "b"].length < MAX_CONCURRENT_SESSIONS → "c" ∉ ["a", "b"] →
      (onConnection none ["a", "b"] "c" "/ws").registry = ["a", "b"] ++ ["c"] ∧
      (onConnection none ["a", "b"] "c" "/ws").registry.length
          = ["a", "b"].length + 1 ∧
      (onConnection none ["a", "b"] "c" "/ws").admittedSession.isSome = true) ∧
    (["a", "b"].length ≤ MAX_CONCURRENT_SESSIONS →
      (onConnection none ["a", "b"] "c" "/ws").registry.length
          ≤ MAX_CONCURRENT_SESSIONS) :=
  claim_C1 none ["a", "b"] "c" "/ws"

/-- C2: once the closed flag of a session is true, a client frame
produces zero upstream sends and an upstream message produces zero
client events, and the session state is untouched. -/
theorem claim_C2 (jsonOk : List Nat → Bool) (s : Session) (reg : List String)
    (f : Frame) (m : SmMsg) (h : s.closed = true) :
    (step jsonOk s reg (Ev.clientMsg f)).upstreamSends = [] ∧
    (step jsonOk s reg (Ev.clientMsg f)).session = s ∧
    (step jsonOk s reg (Ev.smMsgEv m)).clientEvents = [] ∧
    (step jsonOk s reg (Ev.smMsgEv m)).session = s := by
  cases hws : s.speechmaticsWs <;>
    simp [step, handleClientMessage, handleSmMessage, h, hws]

/-- C2 witness: a closed session drops a client audio frame and an
upstream partial transcript. -/
theorem claim_C2_witness :
    sClosed.closed = true ∧
    (step (fun _ => false) sClosed [] (Ev.clientMsg ⟨true, [1, 2]⟩)).upstreamSends
        = [] ∧
    (step (fun _ => false) sClosed []
        (Ev.smMsgEv (SmMsg.AddPartialTranscript (some "hi")))).clientEvents = [] :=
  ⟨by decide,
   (claim_C2 (fun _ => false) sClosed [] ⟨true, [1, 2]⟩
      (SmMsg.AddPartialTranscript (some "hi")) (by decide)).1,
   (claim_C2 (fun _ => false) sClosed [] ⟨true, [1, 2]⟩
      (SmMsg.AddPartialTranscript (some "hi")) (by decide)).2.2.1⟩

/-- C10: classification of an inbound client frame depends only on its
bytes, never on the text/binary kind flag; JSON-decodable bytes are
consumed as configuration and never forwarded; non-JSON bytes are
forwarded verbatim when the Speechmatics socket is open. -/
theorem claim_C10 (jsonOk : List Nat → Bool) (s : Session) (reg : List String)
    (f g : Frame) (hbytes : f.bytes = g.bytes) :
    step jsonOk s reg (Ev.clientMsg f) = step jsonOk s reg (Ev.clientMsg g) ∧
    (jsonOk f.bytes = true →
      (step jsonOk s reg (Ev.clientMsg f)).upstreamSends = []) ∧
    (jsonOk f.bytes = false → s.closed = false →
      s.speechmaticsWs = some ReadyState.OPEN →
      (step jsonOk s reg (Ev.clientMsg f)).upstreamSends
          = [UpstreamSend.audio f.bytes]) := by
  refine ⟨?_, fun hj => ?_, fun hj hc hw => ?_⟩
  · simp [step, handleClientMessage, hbytes]
  · simp [step, handleClientMessage, hj]
  · simp [step, handleClientMessage, hj, hc, hw]

/-- C10 witness: a binary frame and a text frame with the same JSON bytes
are handled identically and not forwarded; the same bytes declared
non-JSON are forwarded. -/
theorem claim_C10_witness :
    (step (fun _ => true) sOpen [] (Ev.clientMsg ⟨true, [3, 4]⟩)
        = step (fun _ => true) sOpen [] (Ev.clientMsg ⟨false, [3, 4]⟩) ∧
      ((fun (_ : List Nat) => true) [3, 4] = true →
        (step (fun _ => true) sOpen [] (Ev.clientMsg ⟨true, [3, 4]⟩)).upstreamSends
            = []) ∧
      ((fun (_ : List Nat) => true) [3, 4] = false → sOpen.closed = false →
        sOpen.speechmaticsWs = some ReadyState.OPEN →
        (step (fun _ => true) sOpen [] (Ev.clientMsg ⟨true, [3, 4]⟩)).upstreamSends
            = [UpstreamSend.audio [3, 4]])) ∧
    ((fun (_ : List Nat) => false) [3, 4] = false → sOpen.closed = false →
      sOpen.speechmaticsWs = some ReadyState.OPEN →
      (step (fun _ => false) sOpen [] (Ev.clientMsg ⟨true, [3, 4]⟩)).upstreamSends
          = [UpstreamSend.audio [3, 4]]) :=
  ⟨claim_C10 (fun _ => true) sOpen [] ⟨true, [3, 4]⟩ ⟨false, [3, 4]⟩ rfl,
   (claim_C10 (fun _ => false) sOpen [] ⟨true, [3, 4]⟩ ⟨false, [3, 4]⟩ rfl).2.2⟩

/-- Closing an already closing or closed socket changes nothing. -/
theorem wsCloseCall_idem (rs : ReadyState) :
    wsCloseCall (wsCloseCall rs) = wsCloseCall rs := by
  cases rs <;> rfl

/-- A socket that received a close call is never OPEN. -/
theorem wsCloseCall_ne_OPEN (rs : ReadyState) :
    wsCloseCall rs ≠ ReadyState.OPEN := by
  cases rs <;> decide

/-- C3: teardown is idempotent. Starting from a registered session with
an active liveness timer, any two firings drawn from the client close
and client error handlers, in either order, release the timer exactly
once (the first firing turns it off), remove the registry entry exactly
once, and leave the second firing a no-op: no state change, no events,
no upstream sends, with the closed flag already true after the first. -/
theorem claim_C3 (jsonOk : List Nat → Bool) (s : Session) (reg : List String)
    (e1 e2 : Ev)
    (h1 : e1 = Ev.clientClose ∨ e1 = Ev.clientError)
    (h2 : e2 = Ev.clientClose ∨ e2 = Ev.clientError)
    (hping : s.pingActive = true) (hcount : reg.count s.id = 1) :
    (step2 jsonOk s reg e1 e2).1.session.closed = true ∧
    (step2 jsonOk s reg e1 e2).1.session.pingActive = false ∧
    ((step2 jsonOk s reg e1 e2).1.registry).count s.id = 0 ∧
    (step2 jsonOk s reg e1 e2).2.session = (step2 jsonOk s reg e1 e2).1.session ∧
    (step2 jsonOk s reg e1 e2).2.registry = (step2 jsonOk s reg e1 e2).1.registry ∧
    (step2 jsonOk s reg e1 e2).2.clientEvents = [] ∧
    (step2 jsonOk s reg e1 e2).2.upstreamSends = [] := by
  have hcz : (reg.erase s.id).count s.id = 0 := by
    rw [List.count_erase_self]
    omega
  have hmem : s.id ∉ reg.erase s.id := by
    rw [← List.count_eq_zero]
    exact hcz
  have herase : (reg.erase s.id).erase s.id = reg.erase s.id :=
    List.erase_of_not_mem hmem
  obtain ⟨sid, lang, cl, ar, ping, sws, cws⟩ := s
  rcases h1 with rfl | rfl <;> rcases h2 with rfl | rfl <;>
    cases sws <;>
      simp_all [step2, step, onClientClose, onClientError, wsCloseCall_idem,
        wsCloseCall_ne_OPEN]

/-- C3 witness: error handler firing after the close handler is a no-op. -/
theorem claim_C3_witness :
    (step2 (fun _ => false) sOpen ["k1"] Ev.clientClose Ev.clientError).1.session.closed
        = true ∧
    (step2 (fun _ => false) sOpen ["k1"] Ev.clientClose
        Ev.clientError).1.session.pingActive = false ∧
    ((step2 (fun _ => false) sOpen ["k1"] Ev.clientClose
        Ev.clientError).1.registry).count sOpen.id = 0 ∧
    (step2 (fun _ => false) sOpen ["k1"] Ev.clientClose Ev.clientError).2.session
        = (step2 (fun _ => false) sOpen ["k1"] Ev.clientClose Ev.clientError).1.session ∧
    (step2 (fun _ => false) sOpen ["k1"] Ev.clientClose Ev.clientError).2.registry
        = (step2 (fun _ => false) sOpen ["k1"] Ev.clientClose Ev.clientError).1.registry ∧
    (step2 (fun _ => false) sOpen ["k1"] Ev.clientClose Ev.clientError).2.clientEvents
        = [] ∧
    (step2 (fun _ => false) sOpen ["k1"] Ev.clientClose Ev.clientError).2.upstreamSends
        = [] :=
  claim_C3 (fun _ => false) sOpen ["k1"] Ev.clientClose Ev.clientError
    (Or.inl rfl) (Or.inr rfl) (by decide) (by decide)

/-- C4 counterexample: the claim says the close-or-error teardown sends
EndOfStream upstream precisely when the upstream socket is open, but the
client error handler sends nothing even though the upstream socket is
OPEN: upstream sends are empty and contain no EndOfStream. -/
theorem claim_C4_counterexample :
    sOpen.closed = false ∧
    sOpen.speechmaticsWs = some ReadyState.OPEN ∧
    (step (fun _ => false) sOpen ["k1"] Ev.clientError).upstreamSends = [] ∧
    UpstreamSend.endOfStream ∉
      (step (fun _ => false) sOpen ["k1"] Ev.clientError).upstreamSends := by
  decide

/-- C4 amended: when the client transport closes, the session is marked
closed, the timer is cancelled, the upstream socket is closed, the
registry entry is removed (size shrinking by 1 when present), and
EndOfStream is sent upstream exactly when the upstream socket was open;
when the client transport errors, the same teardown runs but no
EndOfStream is ever sent. -/
theorem claim_C4_amended (jsonOk : List Nat → Bool) (s : Session)
    (reg : List String) :
    ((step jsonOk s reg Ev.clientClose).session.closed = true ∧
      (step jsonOk s reg Ev.clientClose).session.pingActive = false ∧
      (step jsonOk s reg Ev.clientClose).session.speechmaticsWs
          = s.speechmaticsWs.map wsCloseCall ∧
      (step jsonOk s reg Ev.clientClose).registry = reg.erase s.id ∧
      (step jsonOk s reg Ev.clientClose).upstreamSends
          = (if s.speechmaticsWs = some ReadyState.OPEN
             then [UpstreamSend.endOfStream] else []) ∧
      (step jsonOk s reg Ev.clientClose).clientEvents = []) ∧
    ((step jsonOk s reg Ev.clientError).session.closed = true ∧
      (step jsonOk s reg Ev.clientError).session.pingActive = false ∧
      (step jsonOk s reg Ev.clientError).session.speechmaticsWs
          = s.speechmaticsWs.map wsCloseCall ∧
      (step jsonOk s reg Ev.clientError).registry = reg.erase s.id ∧
      (step jsonOk s reg Ev.clientError).upstreamSends = []) ∧
    (s.id ∈ reg →
      (step jsonOk s reg Ev.clientClose).registry.length + 1 = reg.length ∧
      (step jsonOk s reg Ev.clientError).registry.length + 1 = reg.length) := by
  have hlen : s.id ∈ reg → (reg.erase s.id).length + 1 = reg.length := by
    intro hm
    have h1 : (reg.erase s.id).length = reg.length - 1 :=
      List.length_erase_of_mem hm
    have h2 : 0 < reg.length := List.length_pos_of_mem hm
    omega
  obtain ⟨sid, lang, cl, ar, ping, sws, cws⟩ := s
  cases sws with
  | none =>
    refine ⟨?_, ?_, fun hm => ?_⟩ <;>
      simp_all [step, onClientClose, onClientError]
  | some rs =>
    refine ⟨?_, ?_, fun hm => ?_⟩
    · by_cases hrs : rs = ReadyState.OPEN <;>
        simp_all [step, onClientClose, wsCloseCall]
    · simp_all [step, onClientError]
    · simp_all [step, onClientClose, onClientError]

/-- C4 amended witness: teardown of a streaming session by the close
handler, and by the error handler, at a concrete registered session. -/
theorem claim_C4_amended_witness :
    ((step (fun _ => false) sOpen ["k1"] Ev.clientClose).session.closed = true ∧
      (step (fun _ => false) sOpen ["k1"] Ev.clientClose).session.pingActive = false ∧
      (step (fun _ => false) sOpen ["k1"] Ev.clientClose).session.speechmaticsWs
          = sOpen.speechmaticsWs.map wsCloseCall ∧
      (step (fun _ => false) sOpen ["k1"] Ev.clientClose).registry
          = ["k1"].erase sOpen.id ∧
      (step (fun _ => false) sOpen ["k1"] Ev.clientClose).upstreamSends
          = (if sOpen.speechmaticsWs = some ReadyState.OPEN
             then [UpstreamSend.endOfStream] else []) ∧
      (step (fun _ => false) sOpen ["k1"] Ev.clientClose).clientEvents = []) ∧
    ((step (fun _ => false) sOpen ["k1"] Ev.clientError).session.closed = true ∧
      (step (fun _ => false) sOpen ["k1"] Ev.clientError).session.pingActive = false ∧
      (step (fun _ => false) sOpen ["k1"] Ev.clientError).session.speechmaticsWs
          = sOpen.speechmaticsWs.map wsCloseCall ∧
      (step (fun _ => false) sOpen ["k1"] Ev.clientError).registry
          = ["k1"].erase sOpen.id ∧
      (step (fun _ => false) sOpen ["k1"] Ev.clientError).upstreamSends = []) ∧
    (sOpen.id ∈ ["k1"] →
      (step (fun _ => false) sOpen ["k1"] Ev.clientClose).registry.length + 1
          = ["k1"].length ∧
      (step (fun _ => false) sOpen ["k1"] Ev.clientError).registry.length + 1
          = ["k1"].length) :=
  claim_C4_amended (fun _ => false) sOpen ["k1"]

/-- C5: while the session is not closed, an upstream transport close is
reported to the client as exactly one speechmatics_disconnected event
carrying code and reason, an upstream transport error as exactly one
error event carrying the detail, and neither firing closes the client
socket or the session. -/
theorem claim_C5 (jsonOk : List Nat → Bool) (s : Session) (reg : List String)
    (rs : ReadyState) (code : Nat) (reason : Option String) (em : String)
    (hws : s.speechmaticsWs = some rs) (hclosed : s.closed = false) :
    (step jsonOk s reg (Ev.smCloseEv code reason)).clientEvents
        = [ClientEvent.speechmaticsDisconnectedEv code reason] ∧
    (step jsonOk s reg (Ev.smCloseEv code reason)).session.clientWs = s.clientWs ∧
    (step jsonOk s reg (Ev.smCloseEv code reason)).session.closed = false ∧
    (step jsonOk s reg (Ev.smCloseEv code reason)).registry = reg ∧
    (step jsonOk s reg (Ev.smErrorEv em)).clientEvents
        = [ClientEvent.errorEv "Speechmatics connection error" (some em)] ∧
    (step jsonOk s reg (Ev.smErrorEv em)).session.clientWs = s.clientWs ∧
    (step jsonOk s reg (Ev.smErrorEv em)).session.closed = false ∧
    (step jsonOk s reg (Ev.smErrorEv em)).registry = reg := by
  simp [step, hws, onSmClose, onSmError, hclosed]

/-- C5 witness: upstream close with code 1006 and upstream error on a
live session. -/
theorem claim_C5_witness :
    (step (fun _ => false) sOpen ["k1"]
        (Ev.smCloseEv 1006 (some "gone"))).clientEvents
        = [ClientEvent.speechmaticsDisconnectedEv 1006 (some "gone")] ∧
    (step (fun _ => false) sOpen ["k1"]
        (Ev.smCloseEv 1006 (some "gone"))).session.clientWs = sOpen.clientWs ∧
    (step (fun _ => false) sOpen ["k1"]
        (Ev.smCloseEv 1006 (some "gone"))).session.closed = false ∧
    (step (fun _ => false) sOpen ["k1"]
        (Ev.smCloseEv 1006 (some "gone"))).registry = ["k1"] ∧
    (step (fun _ => false) sOpen ["k1"] (Ev.smErrorEv "refused")).clientEvents
        = [ClientEvent.errorEv "Speechmatics connection error" (some "refused")] ∧
    (step (fun _ => false) sOpen ["k1"] (Ev.smErrorEv "refused")).session.clientWs
        = sOpen.clientWs ∧
    (step (fun _ => false) sOpen ["k1"] (Ev.smErrorEv "refused")).session.closed
        = false ∧
    (step (fun _ => false) sOpen ["k1"] (Ev.smErrorEv "refused")).registry
        = ["k1"] :=
  claim_C5 (fun _ => false) sOpen ["k1"] ReadyState.OPEN 1006 (some "gone")
    "refused" (by decide) (by decide)

/-- When the Speechmatics socket was never created, no handler firing can
create it: every step preserves `speechmaticsWs = none`. -/
theorem step_smWs_none (jsonOk : List Nat → Bool) (s : Session)
    (reg : List String) (e : Ev) (h : s.speechmaticsWs = none) :
    (step jsonOk s reg e).session.speechmaticsWs = none := by
  cases e <;>
    simp [step, handleClientMessage, onClientClose, onClientError, h]

/-- Trace form of `step_smWs_none`. -/
theorem runTrace_smWs_none (jsonOk : List Nat → Bool) (evs : List Ev)
    (s : Session) (reg : List String) (h : s.speechmaticsWs = none) :
    (runTrace jsonOk s reg evs).1.speechmaticsWs = none := by
  induction evs generalizing s reg with
  | nil => exact h
  | cons e rest ih =>
    exact ih _ _ (step_smWs_none jsonOk s reg e h)

/-- C6 counterexample: the claim says a synchronous upstream setup throw
closes the client connection, but after a setup throw the connection
handler leaves the client socket OPEN: it is neither closing nor closed. -/
theorem claim_C6_counterexample :
    (onConnection (some "boom") [] "k1" "/ws").clientEvents
        = [ClientEvent.errorEv "Failed to setup Speechmatics connection"
            (some "boom")] ∧
    (onConnection (some "boom") [] "k1" "/ws").clientWsAfter = ReadyState.OPEN ∧
    (onConnection (some "boom") [] "k1" "/ws").clientWsAfter
        ≠ ReadyState.CLOSING ∧
    (onConnection (some "boom") [] "k1" "/ws").clientWsAfter
        ≠ ReadyState.CLOSED := by
  decide

/-- C6 amended: when opening the upstream stream client throws
synchronously on an admitted connection, the client is notified exactly
once with an error event, the client socket is left open (the relay does
not close it), and the session never reaches the UPSTREAM_OPEN state on
any subsequent trace of handler firings, because its Speechmatics socket
stays null forever. -/
theorem claim_C6_amended (m : String) (reg : List String) (id url : String)
    (hcap : reg.length < MAX_CONCURRENT_SESSIONS) :
    (onConnection (some m) reg id url).clientEvents
        = [ClientEvent.errorEv "Failed to setup Speechmatics connection"
            (some m)] ∧
    (onConnection (some m) reg id url).clientWsAfter = ReadyState.OPEN ∧
    (∀ s1, (onConnection (some m) reg id url).admittedSession = some s1 →
      s1.speechmaticsWs = none ∧
      ∀ (jsonOk : List Nat → Bool) (reg1 : List String) (evs : List Ev),
        (runTrace jsonOk s1 reg1 evs).1.speechmaticsWs
            ≠ some ReadyState.OPEN) := by
  have hnle : ¬ MAX_CONCURRENT_SESSIONS ≤ reg.length := by omega
  refine ⟨by simp [onConnection, hnle, setupSpeechmatics],
    by simp [onConnection, hnle, setupSpeechmatics, initSession],
    fun s1 hs1 => ?_⟩
  have hnone : s1.speechmaticsWs = none := by
    simp [onConnection, hnle, setupSpeechmatics, initSession] at hs1
    rw [← hs1]
  refine ⟨hnone, fun jsonOk reg1 evs => ?_⟩
  rw [runTrace_smWs_none jsonOk evs s1 reg1 hnone]
  simp

/-- C6 amended witness: concrete setup throw on an empty registry, with
never-open checked on a trace that tries to deliver an open firing. -/
theorem claim_C6_amended_witness :
    ((onConnection (some "boom") [] "k1" "/ws").clientEvents
        = [ClientEvent.errorEv "Failed to setup Speechmatics connection"
            (some "boom")] ∧
      (onConnection (some "boom") [] "k1" "/ws").clientWsAfter
          = ReadyState.OPEN ∧
      (∀ s1, (onConnection (some "boom") [] "k1" "/ws").admittedSession
            = some s1 →
        s1.speechmaticsWs = none ∧
        ∀ (jsonOk : List Nat → Bool) (reg1 : List String) (evs : List Ev),
          (runTrace jsonOk s1 reg1 evs).1.speechmaticsWs
              ≠ some ReadyState.OPEN)) :=
  claim_C6_amended "boom" [] "k1" "/ws" (by decide)

/-- C7 counterexample: the claim says every unsupported `lang` value
resolves to ar, but `lang=constructor` resolves to the inherited
Object.prototype constructor (JavaScript object property lookup falls
through to the prototype, and a function is truthy), not to ar, even
though constructor is not a supported language code. -/
theorem claim_C7_counterexample :
    SUPPORTED_LANGUAGES.lookup "constructor" = none ∧
    resolveSessionLanguage "/ws?lang=constructor"
        = JsVal.protoBuiltin "constructor" ∧
    resolveSessionLanguage "/ws?lang=constructor" ≠ JsVal.str "ar" := by
  decide

/-- C7 amended: each of the 11 supported codes resolves to itself; zz, a
missing parameter, an empty value and assorted malformed query strings
all resolve to ar without any failure (the resolution function is total
by construction); and every unsupported extracted value resolves to ar
unless it is the name of an inherited Object.prototype property, in
which case the inherited (non-string) member is stored instead. -/
theorem claim_C7_amended :
    (∀ p ∈ SUPPORTED_LANGUAGES,
      resolveSessionLanguage ("/ws?lang=" ++ p.1) = JsVal.str p.2) ∧
    resolveSessionLanguage "/ws?lang=zz" = JsVal.str "ar" ∧
    resolveSessionLanguage "/ws" = JsVal.str "ar" ∧
    resolveSessionLanguage "/ws?lang=" = JsVal.str "ar" ∧
    resolveSessionLanguage "/ws?&=&&==lang&" = JsVal.str "ar" ∧
    resolveSessionLanguage "/ws?%%%=&%zz=lang" = JsVal.str "ar" ∧
    resolveSessionLanguage "" = JsVal.str "ar" ∧
    resolveLangParam none = JsVal.str "ar" ∧
    (∀ v : List Char,
      SUPPORTED_LANGUAGES.lookup (String.mk v) = none →
      String.mk v ∉ objectPrototypeProps →
      resolveLangParam (some v) = JsVal.str "ar") ∧
    (∀ v : List Char,
      SUPPORTED_LANGUAGES.lookup (String.mk v) = none →
      String.mk v ∈ objectPrototypeProps → v ≠ [] →
      resolveLangParam (some v) = JsVal.protoBuiltin (String.mk v)) := by
  refine ⟨by decide, by decide, by decide, by decide, by decide, by decide,
    by decide, by decide, fun v h1 h2 => ?_, fun v h1 h2 hv => ?_⟩
  · by_cases hv : v = []
    · subst hv; decide
    · simp [resolveLangParam, hv, supportedLanguagesGet, h1, h2, jsTruthy]
  · simp [resolveLangParam, hv, supportedLanguagesGet, h1, h2, jsTruthy]

/-- C7 amended witness: instances of both universal parts at the
supported code en and the unsupported value xx. -/
theorem claim_C7_amended_witness :
    resolveSessionLanguage "/ws?lang=en" = JsVal.str "en" ∧
    resolveLangParam (some ("xx".toList)) = JsVal.str "ar" :=
  ⟨claim_C7_amended.1 ("en", "en") (by decide),
   (claim_C7_amended.2.2.2.2.2.2.2.2.1) ("xx".toList) (by decide) (by decide)⟩

/-- The `x || d` fallback on an optional transcript with empty-string
default coincides with `Option.getD`. -/
theorem jsOrString_empty_default (t : Option String) :
    jsOrString t "" = t.getD "" := by
  cases t with
  | none => rfl
  | some a =>
    by_cases h : a = "" <;> simp [jsOrString, h]

/-- C8: on a session that is not closed and whose upstream socket
exists, an AddPartialTranscript upstream message is relayed as exactly
one partial event and an AddTranscript as exactly one final event, the
transcript being the metadata transcript verbatim when present and the
empty string when absent, with no other state change. -/
theorem claim_C8 (jsonOk : List Nat → Bool) (s : Session) (reg : List String)
    (rs : ReadyState) (t : Option String)
    (hws : s.speechmaticsWs = some rs) (hclosed : s.closed = false) :
    (step jsonOk s reg (Ev.smMsgEv (SmMsg.AddPartialTranscript t))).clientEvents
        = [ClientEvent.partialEv (t.getD "")] ∧
    (step jsonOk s reg (Ev.smMsgEv (SmMsg.AddPartialTranscript t))).session = s ∧
    (step jsonOk s reg (Ev.smMsgEv (SmMsg.AddTranscript t))).clientEvents
        = [ClientEvent.finalEv (t.getD "")] ∧
    (step jsonOk s reg (Ev.smMsgEv (SmMsg.AddTranscript t))).session = s := by
  simp [step, hws, handleSmMessage, hclosed, jsOrString_empty_default]

/-- C8 witness: AddPartialTranscript with transcript hello yields exactly
the partial event with transcript hello. -/
theorem claim_C8_witness :
    (step (fun _ => false) sOpen ["k1"]
        (Ev.smMsgEv (SmMsg.AddPartialTranscript (some "hello")))).clientEvents
        = [ClientEvent.partialEv "hello"] ∧
    (step (fun _ => false) sOpen ["k1"]
        (Ev.smMsgEv (SmMsg.AddPartialTranscript (some "hello")))).session
        = sOpen ∧
    (step (fun _ => false) sOpen ["k1"]
        (Ev.smMsgEv (SmMsg.AddTranscript (some "hello")))).clientEvents
        = [ClientEvent.finalEv "hello"] ∧
    (step (fun _ => false) sOpen ["k1"]
        (Ev.smMsgEv (SmMsg.AddTranscript (some "hello")))).session = sOpen :=
  claim_C8 (fun _ => false) sOpen ["k1"] ReadyState.OPEN (some "hello")
    (by decide) (by decide)

/-- C9 counterexample: the claim says `audioReceived` becomes true
exactly on the first successfully forwarded audio payload, but after a
frame is forwarded to the open upstream socket the flag is still false:
the client message handler never writes it (it is set by the upstream
AudioAdded acknowledgment instead). -/
theorem claim_C9_counterexample :
    sOpen.audioReceived = false ∧
    (step (fun _ => false) sOpen ["k1"]
        (Ev.clientMsg ⟨true, [0, 1, 2]⟩)).upstreamSends
        = [UpstreamSend.audio [0, 1, 2]] ∧
    (step (fun _ => false) sOpen ["k1"]
        (Ev.clientMsg ⟨true, [0, 1, 2]⟩)).session.audioReceived = false := by
  decide

/-- C9 amended: client frames arriving while the upstream socket is not
open are dropped without any state change or crash, leaving
`audioReceived` untouched (hence false before UPSTREAM_OPEN); handling a
client frame never changes `audioReceived` at all; the flag is set true
by the first AudioAdded acknowledgment from the upstream, on a live
session. -/
theorem claim_C9_amended (jsonOk : List Nat → Bool) (s : Session)
    (reg : List String) (f : Frame)
    (hnot : s.speechmaticsWs ≠ some ReadyState.OPEN) :
    ((step jsonOk s reg (Ev.clientMsg f)).upstreamSends = [] ∧
      (step jsonOk s reg (Ev.clientMsg f)).session = s) ∧
    (∀ (s2 : Session) (g : Frame),
      (step jsonOk s2 reg (Ev.clientMsg g)).session.audioReceived
          = s2.audioReceived) ∧
    (∀ s2 : Session, s2.closed = false → s2.speechmaticsWs.isSome = true →
      (step jsonOk s2 reg (Ev.smMsgEv SmMsg.AudioAdded)).session.audioReceived
          = true) := by
  refine ⟨?_, fun s2 g => ?_, fun s2 hc hw => ?_⟩
  · simp only [step, handleClientMessage]
    split_ifs <;> simp_all
  · simp only [step, handleClientMessage]
    split_ifs <;> rfl
  · cases hws : s2.speechmaticsWs with
    | none => simp [hws] at hw
    | some rs => simp [step, hws, handleSmMessage, hc]

/-- C9 amended witness: three binary frames sent before the upstream
socket leaves CONNECTING are all dropped and `audioReceived` stays
false; a subsequent AudioAdded on an open session sets it. -/
theorem claim_C9_amended_witness :
    (((step (fun _ => false)
        { sOpen with speechmaticsWs := some ReadyState.CONNECTING } ["k1"]
        (Ev.clientMsg ⟨true, [7]⟩)).upstreamSends = [] ∧
      (step (fun _ => false)
        { sOpen with speechmaticsWs := some ReadyState.CONNECTING } ["k1"]
        (Ev.clientMsg ⟨true, [7]⟩)).session
          = { sOpen with speechmaticsWs := some ReadyState.CONNECTING }) ∧
    (∀ (s2 : Session) (g : Frame),
      (step (fun _ => false) s2 ["k1"] (Ev.clientMsg g)).session.audioReceived
          = s2.audioReceived) ∧
    (∀ s2 : Session, s2.closed = false → s2.speechmaticsWs.isSome = true →
      (step (fun _ => false) s2 ["k1"]
        (Ev.smMsgEv SmMsg.AudioAdded)).session.audioReceived = true)) :=
  claim_C9_amended (fun _ => false)
    { sOpen with speechmaticsWs := some ReadyState.CONNECTING } ["k1"]
    ⟨true, [7]⟩ (by decide)

end VoiceServer
